import Mathlib

/-!
Verification development for the SNS result-ingestion webhook of the
resume-ai repository.

The embedding below mirrors, in Lean, the two source files that the
verified claims are about:

* `src/lib/sns-validator.ts` — signature validation, subscription
  confirmation, payload parsing and S3-key owner extraction;
* the webhook route (`POST` handler plus the three event handlers
  `handleProcessingStarted`, `handleProcessingCompleted`,
  `handleProcessingError`).

External effects are modelled explicitly:

* network fetches and the RSA-SHA1 verification primitive are oracle
  functions packaged in `CryptoWorld` / `PostWorld`; a fallible step is an
  `Except String _` value (an `.error` models a thrown JS exception);
* functions that perform fetches also return the list of URLs they
  fetched, so "no network call was made" is expressible as an equation;
* the Prisma-backed store is a pair of lists (`DB`); `update` on a unique
  id maps over the list, `upsert` replaces-or-appends.  Prisma's
  documented treatment of `undefined` in `update` data — the field is
  skipped, not set to null — is modelled by `updOpt`; in `create` data an
  `undefined` optional field becomes null (here: `none`).
* JavaScript string truthiness (`if (x)` is false for `undefined` and for
  `""`) is modelled by `jsTruthy`.
-/

/-- JavaScript truthiness of an optional string: `undefined` and the empty
string are falsy, every other string is truthy. -/
def jsTruthy : Option String → Bool
  | none => false
  | some s => s ≠ ""

/-- Split a character list at every occurrence of `c`, mirroring the
semantics of JavaScript `String.prototype.split` with a one-character
separator (the empty string splits to `[""]`). -/
def splitChar (c : Char) : List Char → List (List Char)
  | [] => [[]]
  | x :: xs =>
    let r := splitChar c xs
    if x = c then [] :: r
    else
      match r with
      | [] => [[x]]
      | y :: ys => (x :: y) :: ys

/-- Whether `p` is a prefix of `s`, mirroring `String.prototype.startsWith`. -/
def strStartsWith (s p : String) : Bool :=
  p.toList.isPrefixOf s.toList

/-- Whether `p` is a suffix of `s`, mirroring `String.prototype.endsWith`. -/
def strEndsWith (s p : String) : Bool :=
  p.toList.isSuffixOf s.toList

/-- Whether `needle` occurs inside `hay`, on character lists. -/
def charListContains (needle : List Char) : List Char → Bool
  | [] => needle.isEmpty
  | c :: rest => needle.isPrefixOf (c :: rest) || charListContains needle rest

/-- Whether `needle` occurs inside `hay`, mirroring
`String.prototype.includes`. -/
def strContains (hay needle : String) : Bool :=
  charListContains needle.toList hay.toList

/-- The host component of an `https` URL: the characters after
`"https://"` and before the first `/`.  Used only to state what the
trusted-host property from the spec means for a URL. -/
def urlHost (u : String) : String :=
  if strStartsWith u "https://" then
    String.mk ((u.toList.drop 8).takeWhile (fun c => c ≠ '/'))
  else ""

/-- Whether a host is an SNS host of the `amazonaws.com` domain,
e.g. `sns.us-east-1.amazonaws.com`.  This is the trusted-signer-domain
property the spec describes; it is deliberately about the URL's host, not
about substrings of the whole URL. -/
def isAwsSnsHost (h : String) : Bool :=
  strStartsWith h "sns." && strEndsWith h ".amazonaws.com"

/-- The inbound SNS message envelope, mirroring interface `SNSMessage` of
`sns-validator.ts`.  Optional JSON fields are `Option String`; the JSON
field `Type` is embedded as `msgType` because `Type` is a Lean keyword. -/
structure SNSMessage where
  msgType : String
  MessageId : String
  Token : Option String
  TopicArn : String
  Subject : Option String
  Message : String
  Timestamp : String
  SignatureVersion : String
  Signature : String
  SigningCertURL : String
  UnsubscribeURL : Option String
  SubscribeURL : Option String
deriving DecidableEq, Repr

/-- The certificate-URL guard of `validateSNSSignature`:
`certUrl.startsWith("https://sns.") && certUrl.includes(".amazonaws.com/")`. -/
def certUrlOk (u : String) : Bool :=
  strStartsWith u "https://sns." && strContains u ".amazonaws.com/"

/-- The string to sign, rebuilt exactly as `validateSNSSignature` builds
it: for `Notification` the fields `Message`, `MessageId`, a truthy
`Subject`, `Timestamp`, `TopicArn`, `Type`; for the two confirmation kinds
the fields `Message`, `MessageId`, `SubscribeURL`, `Timestamp`, `Token`,
`TopicArn`, `Type` with `|| ""` defaults; any other kind leaves the string
empty. -/
def buildStringToSign (m : SNSMessage) : String :=
  if m.msgType = "Notification" then
    String.intercalate "\n"
      (["Message\n" ++ m.Message, "MessageId\n" ++ m.MessageId]
        ++ (if jsTruthy m.Subject then ["Subject\n" ++ m.Subject.getD ""] else [])
        ++ ["Timestamp\n" ++ m.Timestamp, "TopicArn\n" ++ m.TopicArn,
            "Type\n" ++ m.msgType]) ++ "\n"
  else if m.msgType = "SubscriptionConfirmation" ∨ m.msgType = "UnsubscribeConfirmation" then
    String.intercalate "\n"
      ["Message\n" ++ m.Message, "MessageId\n" ++ m.MessageId,
       "SubscribeURL\n" ++ m.SubscribeURL.getD "",
       "Timestamp\n" ++ m.Timestamp,
       "Token\n" ++ m.Token.getD "",
       "TopicArn\n" ++ m.TopicArn,
       "Type\n" ++ m.msgType] ++ "\n"
  else ""

/-- Oracles for the effectful primitives used by the validator: the
certificate fetch (`.error` = thrown, otherwise the response `ok` flag and
body text) and node's `crypto` RSA-SHA1 verification of `data` against the
base64-encoded `signature` using `cert` (`.error` = thrown, e.g. an
unparseable certificate). -/
structure CryptoWorld where
  fetchCert : String → Except String (Bool × String)
  rsaSha1VerifyBase64 : (cert : String) → (data : String) → (sigBase64 : String) → Except String Bool

/-- The body of the `try` block of `validateSNSSignature`, returning the
result (or the exception) together with the list of URLs fetched. -/
def validateSNSSignatureT (w : CryptoWorld) (m : SNSMessage) :
    Except String Bool × List String :=
  let certUrl := m.SigningCertURL
  if !(strStartsWith certUrl "https://sns.") || !(strContains certUrl ".amazonaws.com/") then
    (.ok false, [])
  else
    match w.fetchCert certUrl with
    | .error e => (.error e, [certUrl])
    | .ok (ok, cert) =>
      if !ok then (.ok false, [certUrl])
      else
        match w.rsaSha1VerifyBase64 cert (buildStringToSign m) m.Signature with
        | .error e => (.error e, [certUrl])
        | .ok b => (.ok b, [certUrl])

/-- The exported `validateSNSSignature`: the `try` body with its
`catch` — an exception anywhere inside becomes the return value `false`. -/
def validateSNSSignature (w : CryptoWorld) (m : SNSMessage) : Bool × List String :=
  match validateSNSSignatureT w m with
  | (.ok b, t) => (b, t)
  | (.error _, t) => (false, t)

/-- The exported `confirmSNSSubscription`: GET the subscribe URL, return
the response's `ok` flag, and return `false` if the fetch throws.  The
second component records the URL fetched. -/
def confirmSNSSubscription (fetchConfirm : String → Except String Bool)
    (url : String) : Bool × List String :=
  match fetchConfirm url with
  | .error _ => (false, [url])
  | .ok ok => (ok, [url])

/-- The exported `extractUserIdFromS3Key`: split the key on `/`; when
there are at least two segments and the first is `uploads` or `resumes`,
the second segment is the owner token, otherwise `null`. -/
def extractUserIdFromS3Key (s3Key : String) : Option String :=
  let parts := (splitChar '/' s3Key.toList).map String.mk
  match parts with
  | p0 :: p1 :: _ =>
    if p0 = "uploads" ∨ p0 = "resumes" then some p1 else none
  | _ => none

example : extractUserIdFromS3Key "uploads/u123/170000-file.pdf" = some "u123" := by decide
example : extractUserIdFromS3Key "resumes/guest/170000-file.pdf" = some "guest" := by decide
example : extractUserIdFromS3Key "other/u123/f.pdf" = none := by decide
example : certUrlOk "https://sns.us-east-1.amazonaws.com/cert.pem" = true := by decide
example : certUrlOk "http://sns.us-east-1.amazonaws.com/cert.pem" = false := by decide
example : certUrlOk "https://sns.evil.com/x.amazonaws.com/cert.pem" = true := by decide
example : urlHost "https://sns.evil.com/x.amazonaws.com/cert.pem" = "sns.evil.com" := by decide

/-- The optional `section_scores` object of a completion payload. -/
structure SectionScores where
  contact_information : Option Int
  professional_summary : Option Int
  work_experience : Option Int
  education : Option Int
  skills : Option Int
  formatting : Option Int
deriving DecidableEq, Repr

/-- A `SectionScores` with every field absent, i.e. the `{}` that
`results.section_scores || {}` produces. -/
def emptySectionScores : SectionScores :=
  ⟨none, none, none, none, none, none⟩

/-- The `results` object of a `processing_completed` payload.  Numeric
JSON values carry no arithmetic in this component, so they are embedded
as `Int`; an absent optional field is `none` (JS `undefined`). -/
structure CompletedResults where
  overall_score : Int
  section_scores : Option SectionScores
  ats_compatibility : Option Int
  content_quality : Option Int
  keyword_density : Option Int
  recommendations : Option (List String)
  keywords_found : Option (List String)
  improvement_areas : Option (List String)
  strengths : Option (List String)
deriving DecidableEq, Repr

/-- A parsed SNS payload, the sum of the three recognized event shapes
plus `unknown` for any other `event_type` discriminant (JSON parsing in
the source is an unchecked cast, so an unrecognized discriminant still
yields an object carrying its `event_type` and `file_key`). -/
inductive SNSPayload where
  | started (file_key bucket timestamp : String)
      (file_size : Option Int) (file_type : Option String)
  | completed (file_key bucket timestamp : String) (results : CompletedResults)
  | procError (file_key bucket timestamp error_message error_type : String)
  | unknown (event_type file_key : String)
deriving DecidableEq, Repr

/-- The `file_key` field read off any payload shape. -/
def SNSPayload.fileKey : SNSPayload → String
  | .started fk _ _ _ _ => fk
  | .completed fk _ _ _ => fk
  | .procError fk _ _ _ _ => fk
  | .unknown _ fk => fk

/-- A persisted Resume (Job) row: the fields this component touches. -/
structure Resume where
  id : Nat
  s3Key : String
  userId : Option String
  status : String
deriving DecidableEq, Repr

/-- A persisted Result row, mirroring the Prisma `result` model fields
written by the completion handler. -/
structure ResultRec where
  resumeId : Nat
  score : Option Int
  atsScore : Option Int
  contentScore : Option Int
  keywordDensity : Option Int
  contactScore : Option Int
  summaryScore : Option Int
  experienceScore : Option Int
  educationScore : Option Int
  skillsScore : Option Int
  formattingScore : Option Int
  extractedSkills : List String
  recommendations : List String
  strengths : List String
  improvementAreas : List String
deriving DecidableEq, Repr

/-- The persistent store: the resume table and the result table. -/
structure DB where
  resumes : List Resume
  results : List ResultRec
deriving DecidableEq, Repr

/-- The owner value the handlers match against:
`userId === "guest" ? null : userId`. -/
def expectedOwner (uid : String) : Option String :=
  if uid = "guest" then none else some uid

/-- The `prisma.resume.findFirst` call shared by all three handlers:
first resume whose `s3Key` equals the payload's `file_key` and whose
`userId` equals the expected owner. -/
def findResume (db : DB) (fileKey : String) (uid : String) : Option Resume :=
  db.resumes.find? (fun r => decide (r.s3Key = fileKey ∧ r.userId = expectedOwner uid))

/-- Prisma `update` on a unique `id`: set the status of the row with that
id. -/
def setStatus (rid : Nat) (st : String) (rs : List Resume) : List Resume :=
  rs.map (fun r => if r.id = rid then { r with status := st } else r)

/-- Prisma `update`-data semantics for an optional scalar: an `undefined`
value (`none`) is skipped (the stored value is kept), a present value
replaces the stored one. -/
def updOpt (old new : Option Int) : Option Int :=
  match new with
  | some v => some v
  | none => old

/-- The `create` branch of the result upsert: every field taken from the
payload's `results`; absent optional numerics become null, absent lists
become `[]` (the handler's `|| []` defaults). -/
def resultCreate (rid : Nat) (r : CompletedResults) : ResultRec :=
  let ss := r.section_scores.getD emptySectionScores
  { resumeId := rid
    score := some r.overall_score
    atsScore := r.ats_compatibility
    contentScore := r.content_quality
    keywordDensity := r.keyword_density
    contactScore := ss.contact_information
    summaryScore := ss.professional_summary
    experienceScore := ss.work_experience
    educationScore := ss.education
    skillsScore := ss.skills
    formattingScore := ss.formatting
    extractedSkills := r.keywords_found.getD []
    recommendations := r.recommendations.getD []
    strengths := r.strengths.getD []
    improvementAreas := r.improvement_areas.getD [] }

/-- The `update` branch of the result upsert: the same data object, under
Prisma update semantics — a present numeric replaces, an `undefined`
numeric is skipped (prior value kept); the list fields are always concrete
(`|| []`), so they always replace. -/
def resultUpdate (old : ResultRec) (r : CompletedResults) : ResultRec :=
  let ss := r.section_scores.getD emptySectionScores
  { old with
    score := some r.overall_score
    atsScore := updOpt old.atsScore r.ats_compatibility
    contentScore := updOpt old.contentScore r.content_quality
    keywordDensity := updOpt old.keywordDensity r.keyword_density
    contactScore := updOpt old.contactScore ss.contact_information
    summaryScore := updOpt old.summaryScore ss.professional_summary
    experienceScore := updOpt old.experienceScore ss.work_experience
    educationScore := updOpt old.educationScore ss.education
    skillsScore := updOpt old.skillsScore ss.skills
    formattingScore := updOpt old.formattingScore ss.formatting
    extractedSkills := r.keywords_found.getD []
    recommendations := r.recommendations.getD []
    strengths := r.strengths.getD []
    improvementAreas := r.improvement_areas.getD [] }

/-- Prisma `result.upsert` keyed by `resumeId`: replace the existing row
or append a freshly created one. -/
def upsertResult (rs : List ResultRec) (rid : Nat) (r : CompletedResults) :
    List ResultRec :=
  if rs.any (fun x => x.resumeId == rid) then
    rs.map (fun x => if x.resumeId == rid then resultUpdate x r else x)
  else rs ++ [resultCreate rid r]

/-- The `handleProcessingStarted` handler: locate the resume by key and
owner; if absent, a logged no-op; otherwise set its status to
`PROCESSING`. -/
def handleProcessingStarted (fileKey : String) (uid : String) (db : DB) : DB :=
  match findResume db fileKey uid with
  | none => db
  | some resume => { db with resumes := setStatus resume.id "PROCESSING" db.resumes }

/-- The `handleProcessingCompleted` handler: locate the resume; if absent,
a logged no-op; otherwise, in one transaction, set its status to
`COMPLETED` and upsert its Result from the payload's `results`. -/
def handleProcessingCompleted (fileKey : String) (r : CompletedResults)
    (uid : String) (db : DB) : DB :=
  match findResume db fileKey uid with
  | none => db
  | some resume =>
    { resumes := setStatus resume.id "COMPLETED" db.resumes
      results := upsertResult db.results resume.id r }

/-- The `handleProcessingError` handler: locate the resume; if absent, a
logged no-op; otherwise set its status to `FAILED`. -/
def handleProcessingError (fileKey : String) (uid : String) (db : DB) : DB :=
  match findResume db fileKey uid with
  | none => db
  | some resume => { db with resumes := setStatus resume.id "FAILED" db.resumes }

/-- The topic guard of the POST handler:
`expectedTopicArn && snsMessage.TopicArn !== expectedTopicArn`.  An unset
or empty configured topic is falsy, so the guard never fires. -/
def topicMismatch (env : Option String) (topicArn : String) : Bool :=
  match env with
  | none => false
  | some t => if t = "" then false else decide (topicArn ≠ t)

/-- The oracles the POST handler needs beyond `CryptoWorld`: the
confirmation-URL fetch and the `JSON.parse` of the inner message body
(`none` models a parse failure). -/
structure PostWorld where
  crypto : CryptoWorld
  fetchConfirm : String → Except String Bool
  parsePayload : String → Option SNSPayload

/-- The observable outcome of one POST invocation: HTTP status, resulting
store, the certificate URLs fetched, the confirmation URLs fetched, and
how many record-locator lookups (`findFirst`) ran. -/
structure PostResult where
  status : Nat
  db : DB
  certFetches : List String
  confirmFetches : List String
  lookups : Nat
deriving DecidableEq, Repr

/-- The POST webhook handler, mirroring the route's control flow: topic
guard (403), signature validation (403), subscription confirmation
(200/500/400), notification parsing (400), owner-token extraction (400),
then the three event handlers (200) with unknown event types acknowledged
as a no-op (200); any other envelope kind is 400.  Persistence is modelled
as always succeeding, so the outer catch-all 500 branch is unreachable in
this embedding. -/
def postHandler (env : Option String) (w : PostWorld) (msg : SNSMessage)
    (db : DB) : PostResult :=
  if topicMismatch env msg.TopicArn then
    ⟨403, db, [], [], 0⟩
  else
    let v := validateSNSSignature w.crypto msg
    if !v.1 then ⟨403, db, v.2, [], 0⟩
    else if msg.msgType = "SubscriptionConfirmation" then
      match msg.SubscribeURL with
      | some url =>
        if url = "" then ⟨400, db, v.2, [], 0⟩
        else
          let c := confirmSNSSubscription w.fetchConfirm url
          if c.1 then ⟨200, db, v.2, c.2, 0⟩ else ⟨500, db, v.2, c.2, 0⟩
      | none => ⟨400, db, v.2, [], 0⟩
    else if msg.msgType = "Notification" then
      match w.parsePayload msg.Message with
      | none => ⟨400, db, v.2, [], 0⟩
      | some p =>
        match extractUserIdFromS3Key p.fileKey with
        | none => ⟨400, db, v.2, [], 0⟩
        | some uid =>
          match p with
          | .started fk _ _ _ _ => ⟨200, handleProcessingStarted fk uid db, v.2, [], 1⟩
          | .completed fk _ _ r => ⟨200, handleProcessingCompleted fk r uid db, v.2, [], 1⟩
          | .procError fk _ _ _ _ => ⟨200, handleProcessingError fk uid db, v.2, [], 1⟩
          | .unknown _ _ => ⟨200, db, v.2, [], 0⟩
    else ⟨400, db, v.2, [], 0⟩

/-! Concrete fixtures used by witnesses and counterexamples. -/

/-- A crypto world whose fetch succeeds and whose RSA-SHA1 check accepts. -/
def wAcceptCrypto : CryptoWorld :=
  ⟨fun _ => .ok (true, "CERTPEM"), fun _ _ _ => .ok true⟩

/-- A crypto world whose certificate fetch throws. -/
def wFetchThrows : CryptoWorld :=
  ⟨fun _ => .error "network", fun _ _ _ => .ok true⟩

/-- A well-formed AWS SNS signing-certificate URL. -/
def goodCertUrl : String := "https://sns.us-east-1.amazonaws.com/cert.pem"

/-- A URL that passes the source's substring guard although its host is
attacker-controlled. -/
def evilCertUrl : String := "https://sns.evil.com/x.amazonaws.com/cert.pem"

/-- A Notification envelope with a trusted certificate URL. -/
def msgNotifGood : SNSMessage :=
  { msgType := "Notification", MessageId := "m1", Token := none,
    TopicArn := "arn:trusted", Subject := none, Message := "body",
    Timestamp := "t1", SignatureVersion := "1", Signature := "sig",
    SigningCertURL := goodCertUrl, UnsubscribeURL := none,
    SubscribeURL := none }

/-- The same Notification envelope but with the guard-bypassing URL. -/
def msgEvilCert : SNSMessage := { msgNotifGood with SigningCertURL := evilCertUrl }

/-- A Notification envelope whose topic differs from the trusted one. -/
def msgWrongTopic : SNSMessage := { msgNotifGood with TopicArn := "arn:other" }

/-- A post world over the accepting crypto world whose confirmation fetch
succeeds and whose payload parse fails. -/
def wPost : PostWorld := ⟨wAcceptCrypto, fun _ => .ok true, fun _ => none⟩

/-- The empty store. -/
def db0 : DB := ⟨[], []⟩

/-- C1.  The claim says: an envelope whose signing-certificate URL's host
is not an SNS `amazonaws.com` host is rejected (false) with no certificate
fetch.  The code's guard is a substring test
(`startsWith "https://sns."` plus `includes ".amazonaws.com/"`), and the
URL `https://sns.evil.com/x.amazonaws.com/cert.pem` — whose host
`sns.evil.com` is not an AWS SNS host — passes it: the certificate IS
fetched (trace `[evilCertUrl]`) and validation can return `true`.  The
spec states the intended trusted-host property and the source's own
comment says the guard verifies the URL is from AWS, so this is a bug in
the code's guard, witnessed here by evaluation. -/
theorem validateSNSSignature_cert_url_guard_bypassed :
    urlHost evilCertUrl = "sns.evil.com" ∧
    isAwsSnsHost (urlHost evilCertUrl) = false ∧
    validateSNSSignature wAcceptCrypto msgEvilCert = (true, [evilCertUrl]) := by
  refine ⟨by decide, by decide, by decide⟩

/-- C6.  Fail closed: whenever the try-body of `validateSNSSignature`
raises (certificate fetch, body read, or cryptographic verification), the
exported function returns `false` instead of propagating the exception. -/
theorem validateSNSSignature_fail_closed (w : CryptoWorld) (m : SNSMessage)
    (e : String) (h : (validateSNSSignatureT w m).1 = .error e) :
    (validateSNSSignature w m).1 = false := by
  unfold validateSNSSignature
  rcases hE : validateSNSSignatureT w m with ⟨r, t⟩
  rw [hE] at h
  cases r with
  | ok b => simp at h
  | error e2 => simp

/-- Witness for C6 at a concrete input: a throwing certificate fetch on a
guard-passing envelope yields `false`. -/
theorem validateSNSSignature_fail_closed_witness :
    (validateSNSSignature wFetchThrows msgNotifGood).1 = false :=
  validateSNSSignature_fail_closed wFetchThrows msgNotifGood "network" rfl

/-- C10.  When the configured trusted topic is unset (or set to the empty
string, which is falsy in `expectedTopicArn && ...`), the POST handler
behaves exactly as it does when the envelope's own `TopicArn` is the
configured topic: the topic guard is skipped and processing proceeds to
signature verification and, on success, to full handling. -/
theorem postHandler_skips_topic_check_when_unconfigured
    (w : PostWorld) (msg : SNSMessage) (db : DB) :
    postHandler none w msg db = postHandler (some msg.TopicArn) w msg db ∧
    postHandler (some "") w msg db = postHandler (some msg.TopicArn) w msg db := by
  constructor <;> simp [postHandler, topicMismatch]

/-- C3 counterexample: a notification with a mismatching `TopicArn`
against a configured trusted topic is answered with 403, not with the 400
the claim states. -/
theorem postHandler_wrong_topic_is_403_not_400 :
    (postHandler (some "arn:trusted") wPost msgWrongTopic db0).status = 403 ∧
    ¬(postHandler (some "arn:trusted") wPost msgWrongTopic db0).status = 400 := by
  refine ⟨by decide, by decide⟩

/-- C3 amended: with a non-empty configured topic, an envelope whose
`TopicArn` differs is rejected with HTTP 403 before anything else runs: no
certificate fetch, no confirmation fetch, no record lookup, store
untouched. -/
theorem postHandler_wrong_topic_rejects_early
    (env : Option String) (t : String) (w : PostWorld) (msg : SNSMessage)
    (db : DB) (henv : env = some t) (hne : t ≠ "")
    (hmismatch : msg.TopicArn ≠ t) :
    postHandler env w msg db = ⟨403, db, [], [], 0⟩ := by
  subst henv
  simp [postHandler, topicMismatch, hne, hmismatch]

/-- Witness for the amended C3 at a concrete input. -/
theorem postHandler_wrong_topic_rejects_early_witness :
    postHandler (some "arn:trusted") wPost msgWrongTopic db0 =
      ⟨403, db0, [], [], 0⟩ :=
  postHandler_wrong_topic_rejects_early (some "arn:trusted") "arn:trusted"
    wPost msgWrongTopic db0 rfl (by decide) (by decide)

/-- C9.  An authenticated notification whose payload parses but whose
`event_type` is unrecognized, with a well-formed correlation key, is
acknowledged with 200 and causes no store mutation and no record lookup. -/
theorem postHandler_unknown_event_type_ack_no_mutation
    (env : Option String) (w : PostWorld) (msg : SNSMessage) (db : DB)
    (et fk uid : String)
    (h1 : topicMismatch env msg.TopicArn = false)
    (h2 : (validateSNSSignature w.crypto msg).1 = true)
    (h3 : msg.msgType = "Notification")
    (h4 : w.parsePayload msg.Message = some (.unknown et fk))
    (h5 : extractUserIdFromS3Key fk = some uid) :
    postHandler env w msg db =
      ⟨200, db, (validateSNSSignature w.crypto msg).2, [], 0⟩ := by
  simp [postHandler, h1, h2, h3, h4, SNSPayload.fileKey, h5]

/-- A post world whose payload parse yields an unrecognized event type. -/
def wUnknownEvent : PostWorld :=
  ⟨wAcceptCrypto, fun _ => .ok true,
   fun _ => some (.unknown "processing_archived" "uploads/u1/f.pdf")⟩

/-- Witness for C9 at a concrete input. -/
theorem postHandler_unknown_event_type_ack_no_mutation_witness :
    postHandler (some "arn:trusted") wUnknownEvent msgNotifGood db0 =
      ⟨200, db0, (validateSNSSignature wUnknownEvent.crypto msgNotifGood).2, [], 0⟩ :=
  postHandler_unknown_event_type_ack_no_mutation (some "arn:trusted")
    wUnknownEvent msgNotifGood db0 "processing_archived" "uploads/u1/f.pdf" "u1"
    (by decide) (by decide) rfl rfl (by decide)

/-- A signature-verified subscription-confirmation envelope. -/
def msgSub : SNSMessage :=
  { msgNotifGood with
    msgType := "SubscriptionConfirmation"
    Token := some "tok"
    SubscribeURL := some "https://sns.us-east-1.amazonaws.com/confirm" }

/-- A signature-verified unsubscribe-confirmation envelope. -/
def msgUnsub : SNSMessage := { msgSub with msgType := "UnsubscribeConfirmation" }

/-- C4 counterexample: a signature-verified `UnsubscribeConfirmation`
envelope is answered with 400 and its confirmation URL is never fetched —
the code only handles `SubscriptionConfirmation` — contradicting the
claim's 200/500-after-GET behaviour for that kind. -/
theorem postHandler_unsubscribe_confirmation_400_no_fetch :
    (validateSNSSignature wPost.crypto msgUnsub).1 = true ∧
    (postHandler none wPost msgUnsub db0).status = 400 ∧
    (postHandler none wPost msgUnsub db0).confirmFetches = [] := by
  refine ⟨by decide, by decide, by decide⟩

/-- C4 amended: only the subscription-confirmation kind triggers the
handshake: a signature-verified `SubscriptionConfirmation` with a
non-empty `SubscribeURL` causes exactly one GET of that URL and a 200 on
success or a 500 on failure (non-ok response or thrown fetch); a
signature-verified `UnsubscribeConfirmation` is answered 400 with no
confirmation fetch. -/
theorem postHandler_confirmation_semantics
    (env : Option String) (w : PostWorld) (db : DB) :
    (∀ msg url, topicMismatch env msg.TopicArn = false →
      (validateSNSSignature w.crypto msg).1 = true →
      msg.msgType = "SubscriptionConfirmation" →
      msg.SubscribeURL = some url → url ≠ "" →
      (postHandler env w msg db).confirmFetches = [url] ∧
      (postHandler env w msg db).db = db ∧
      (w.fetchConfirm url = .ok true → (postHandler env w msg db).status = 200) ∧
      (w.fetchConfirm url = .ok false → (postHandler env w msg db).status = 500) ∧
      (∀ e, w.fetchConfirm url = .error e → (postHandler env w msg db).status = 500)) ∧
    (∀ msg, topicMismatch env msg.TopicArn = false →
      (validateSNSSignature w.crypto msg).1 = true →
      msg.msgType = "UnsubscribeConfirmation" →
      (postHandler env w msg db).status = 400 ∧
      (postHandler env w msg db).confirmFetches = []) := by
  constructor
  · intro msg url h1 h2 h3 h4 h5
    cases hF : w.fetchConfirm url with
    | ok b =>
      cases b <;>
        simp [postHandler, h1, h2, h3, h4, h5, confirmSNSSubscription, hF]
    | error e =>
      simp [postHandler, h1, h2, h3, h4, h5, confirmSNSSubscription, hF]
  · intro msg h1 h2 h3
    refine ⟨by simp [postHandler, h1, h2, h3], by simp [postHandler, h1, h2, h3]⟩

/-- Witness for the amended C4 at concrete inputs: the handshake GET
happens and returns 200 for a subscription confirmation, and the
unsubscribe kind is answered 400. -/
theorem postHandler_confirmation_semantics_witness :
    (postHandler none wPost msgSub db0).confirmFetches =
      ["https://sns.us-east-1.amazonaws.com/confirm"] ∧
    (postHandler none wPost msgSub db0).status = 200 ∧
    (postHandler none wPost msgUnsub db0).status = 400 :=
  ⟨((postHandler_confirmation_semantics none wPost db0).1 msgSub
      "https://sns.us-east-1.amazonaws.com/confirm" (by decide) (by decide)
      rfl (by decide) (by decide)).1,
   ((postHandler_confirmation_semantics none wPost db0).1 msgSub
      "https://sns.us-east-1.amazonaws.com/confirm" (by decide) (by decide)
      rfl (by decide) (by decide)).2.2.1 rfl,
   ((postHandler_confirmation_semantics none wPost db0).2 msgUnsub
      (by decide) (by decide) rfl).1⟩

/-- Modelled from the claim's wording: the Notification string-to-sign
with the six fields in alphabetical order, `Subject` included whenever the
field is present — even when it is the empty string. -/
def claimStringToSign (m : SNSMessage) : String :=
  String.intercalate "\n"
    (["Message\n" ++ m.Message, "MessageId\n" ++ m.MessageId]
      ++ (match m.Subject with
          | some s => ["Subject\n" ++ s]
          | none => [])
      ++ ["Timestamp\n" ++ m.Timestamp, "TopicArn\n" ++ m.TopicArn,
          "Type\n" ++ m.msgType]) ++ "\n"

/-- The claim's string-to-sign amended to what the code computes:
`Subject` contributes its line only when present AND non-empty (the
source's truthiness test `if (message.Subject)` drops an empty subject). -/
def amendedStringToSign (m : SNSMessage) : String :=
  String.intercalate "\n"
    (["Message\n" ++ m.Message, "MessageId\n" ++ m.MessageId]
      ++ (match m.Subject with
          | some s => if s = "" then [] else ["Subject\n" ++ s]
          | none => [])
      ++ ["Timestamp\n" ++ m.Timestamp, "TopicArn\n" ++ m.TopicArn,
          "Type\n" ++ m.msgType]) ++ "\n"

/-- A Notification envelope carrying a present but empty `Subject`. -/
def msgEmptySubject : SNSMessage := { msgNotifGood with Subject := some "" }

/-- C7 counterexample: with `Subject` present but empty, the code's
string-to-sign omits the `Subject` line, while the claim's construction
(`included only when present`) keeps it. -/
theorem buildStringToSign_empty_subject_diverges :
    ¬ buildStringToSign msgEmptySubject = claimStringToSign msgEmptySubject := by
  decide

/-- C7 amended: for every Notification envelope, the byte string handed to
the RSA-SHA1 verifier is exactly the claim's construction with `Subject`
included only when present and non-empty — the fields `Message`,
`MessageId`, (`Subject`), `Timestamp`, `TopicArn`, `Type` in alphabetical
order, each a name line plus value, joined by newlines with one trailing
newline — and the signature argument is the envelope's base64
`Signature`. -/
theorem validateSNSSignature_string_to_sign
    (w : CryptoWorld) (m : SNSMessage) (cert : String)
    (hty : m.msgType = "Notification")
    (hurl : certUrlOk m.SigningCertURL = true)
    (hfetch : w.fetchCert m.SigningCertURL = .ok (true, cert)) :
    buildStringToSign m = amendedStringToSign m ∧
    validateSNSSignatureT w m =
      (match w.rsaSha1VerifyBase64 cert (amendedStringToSign m) m.Signature with
       | .ok b => (.ok b, [m.SigningCertURL])
       | .error e => (.error e, [m.SigningCertURL])) := by
  have h1 : buildStringToSign m = amendedStringToSign m := by
    rw [buildStringToSign, amendedStringToSign, if_pos hty]
    cases hS : m.Subject with
    | none => simp [jsTruthy, hS]
    | some s =>
      by_cases hs : s = "" <;> simp [jsTruthy, hS, hs]
  have hstart : strStartsWith m.SigningCertURL "https://sns." = true := by
    have := hurl
    rw [certUrlOk, Bool.and_eq_true] at this
    exact this.1
  have hcont : strContains m.SigningCertURL ".amazonaws.com/" = true := by
    have := hurl
    rw [certUrlOk, Bool.and_eq_true] at this
    exact this.2
  refine ⟨h1, ?_⟩
  rw [validateSNSSignatureT]
  simp only [hstart, hcont, Bool.not_true, Bool.or_self, Bool.false_or,
    Bool.or_false, if_neg Bool.false_ne_true, hfetch, h1]
  cases w.rsaSha1VerifyBase64 cert (amendedStringToSign m) m.Signature <;> rfl

/-- Witness for the amended C7 at a concrete input. -/
theorem validateSNSSignature_string_to_sign_witness :
    buildStringToSign msgNotifGood = amendedStringToSign msgNotifGood ∧
    validateSNSSignatureT wAcceptCrypto msgNotifGood =
      (match wAcceptCrypto.rsaSha1VerifyBase64 "CERTPEM"
          (amendedStringToSign msgNotifGood) msgNotifGood.Signature with
       | .ok b => (.ok b, [msgNotifGood.SigningCertURL])
       | .error e => (.error e, [msgNotifGood.SigningCertURL])) :=
  validateSNSSignature_string_to_sign wAcceptCrypto msgNotifGood "CERTPEM"
    rfl (by decide) rfl

/-- The `updOpt` update-data semantics phrased with the library's
`Option.elim`: a present value replaces, an absent one keeps the old. -/
theorem updOpt_eq_elim (a b : Option Int) : updOpt a b = b.elim a some := by
  cases b <;> rfl

/-- A resume row owned by user `u123` for the key `uploads/u123/f.pdf`. -/
def resU : Resume := ⟨2, "uploads/u123/f.pdf", some "u123", "PROCESSING"⟩

/-- A fully populated prior Result row for `resU`. -/
def oldRes : ResultRec :=
  { resumeId := 2, score := some 70, atsScore := some 80,
    contentScore := some 60, keywordDensity := some 5, contactScore := some 1,
    summaryScore := some 2, experienceScore := some 3,
    educationScore := some 4, skillsScore := some 5,
    formattingScore := some 6, extractedSkills := ["a"],
    recommendations := ["b"], strengths := ["c"], improvementAreas := ["d"] }

/-- The store holding `resU` and its prior Result. -/
def dbWithResult : DB := ⟨[resU], [oldRes]⟩

/-- A completion `results` object carrying only the mandatory
`overall_score`: every optional numeric and list field is absent. -/
def sparseResults : CompletedResults :=
  { overall_score := 50, section_scores := none, ats_compatibility := none,
    content_quality := none, keyword_density := none, recommendations := none,
    keywords_found := none, improvement_areas := none, strengths := none }

/-- C2 counterexample: re-completing with a payload that omits
`ats_compatibility` leaves the stored `atsScore` at its prior value
(`some 80`) — Prisma's `update` skips `undefined` fields — whereas the
claim requires every absent numeric field to become null. -/
theorem handleProcessingCompleted_retains_absent_numeric :
    ((handleProcessingCompleted "uploads/u123/f.pdf" sparseResults "u123"
        dbWithResult).results.map (fun x => x.atsScore)) = [some 80] ∧
    ¬((handleProcessingCompleted "uploads/u123/f.pdf" sparseResults "u123"
        dbWithResult).results.map (fun x => x.atsScore)) = [none] := by
  refine ⟨by decide, by decide⟩

/-- C2 amended: applying `processing_completed` to a job whose Result row
already exists rewrites the row from the payload's `results` as follows:
`score` and the four list fields are always replaced (absent lists become
empty lists), while each optional numeric field is replaced when present
in the payload and keeps its prior stored value when absent — update, not
wholesale overwrite, for absent numerics. -/
theorem handleProcessingCompleted_update_field_semantics
    (fk : String) (r : CompletedResults) (uid : String) (db : DB)
    (res : Resume) (old : ResultRec)
    (hfind : findResume db fk uid = some res)
    (hres : db.results = [old]) (hid : old.resumeId = res.id) :
    ∃ newR, (handleProcessingCompleted fk r uid db).results = [newR] ∧
      newR.score = some r.overall_score ∧
      newR.extractedSkills = r.keywords_found.getD [] ∧
      newR.recommendations = r.recommendations.getD [] ∧
      newR.strengths = r.strengths.getD [] ∧
      newR.improvementAreas = r.improvement_areas.getD [] ∧
      newR.atsScore = r.ats_compatibility.elim old.atsScore some ∧
      newR.contentScore = r.content_quality.elim old.contentScore some ∧
      newR.keywordDensity = r.keyword_density.elim old.keywordDensity some ∧
      newR.contactScore =
        ((r.section_scores.getD emptySectionScores).contact_information).elim
          old.contactScore some ∧
      newR.summaryScore =
        ((r.section_scores.getD emptySectionScores).professional_summary).elim
          old.summaryScore some ∧
      newR.experienceScore =
        ((r.section_scores.getD emptySectionScores).work_experience).elim
          old.experienceScore some ∧
      newR.educationScore =
        ((r.section_scores.getD emptySectionScores).education).elim
          old.educationScore some ∧
      newR.skillsScore =
        ((r.section_scores.getD emptySectionScores).skills).elim
          old.skillsScore some ∧
      newR.formattingScore =
        ((r.section_scores.getD emptySectionScores).formatting).elim
          old.formattingScore some := by
  refine ⟨resultUpdate old r, ?_, ?_, ?_, ?_, ?_, ?_, ?_, ?_, ?_, ?_, ?_, ?_,
    ?_, ?_, ?_⟩
  · rw [handleProcessingCompleted, hfind]
    simp [upsertResult, hres, hid]
  all_goals simp [resultUpdate, updOpt_eq_elim]

/-- Witness for the amended C2 at a concrete input. -/
theorem handleProcessingCompleted_update_field_semantics_witness :
    ∃ newR, (handleProcessingCompleted "uploads/u123/f.pdf" sparseResults
        "u123" dbWithResult).results = [newR] ∧
      newR.score = some sparseResults.overall_score ∧
      newR.extractedSkills = sparseResults.keywords_found.getD [] ∧
      newR.recommendations = sparseResults.recommendations.getD [] ∧
      newR.strengths = sparseResults.strengths.getD [] ∧
      newR.improvementAreas = sparseResults.improvement_areas.getD [] ∧
      newR.atsScore = sparseResults.ats_compatibility.elim oldRes.atsScore some ∧
      newR.contentScore =
        sparseResults.content_quality.elim oldRes.contentScore some ∧
      newR.keywordDensity =
        sparseResults.keyword_density.elim oldRes.keywordDensity some ∧
      newR.contactScore =
        ((sparseResults.section_scores.getD emptySectionScores).contact_information).elim
          oldRes.contactScore some ∧
      newR.summaryScore =
        ((sparseResults.section_scores.getD emptySectionScores).professional_summary).elim
          oldRes.summaryScore some ∧
      newR.experienceScore =
        ((sparseResults.section_scores.getD emptySectionScores).work_experience).elim
          oldRes.experienceScore some ∧
      newR.educationScore =
        ((sparseResults.section_scores.getD emptySectionScores).education).elim
          oldRes.educationScore some ∧
      newR.skillsScore =
        ((sparseResults.section_scores.getD emptySectionScores).skills).elim
          oldRes.skillsScore some ∧
      newR.formattingScore =
        ((sparseResults.section_scores.getD emptySectionScores).formatting).elim
          oldRes.formattingScore some :=
  handleProcessingCompleted_update_field_semantics "uploads/u123/f.pdf"
    sparseResults "u123" dbWithResult resU oldRes (by decide) rfl rfl

/-- Re-applying the same update data is a no-op on an updated field. -/
theorem updOpt_idem (a b : Option Int) : updOpt (updOpt a b) b = updOpt a b := by
  cases b <;> rfl

/-- Updating with a value equal to the stored one keeps it. -/
theorem updOpt_self (a : Option Int) : updOpt a a = a := by
  cases a <;> rfl

/-- `resultUpdate` keeps the row's key. -/
theorem resultUpdate_resumeId (old : ResultRec) (r : CompletedResults) :
    (resultUpdate old r).resumeId = old.resumeId := rfl

/-- The key of a freshly created Result row. -/
theorem resultCreate_resumeId (rid : Nat) (r : CompletedResults) :
    (resultCreate rid r).resumeId = rid := rfl

/-- Applying the same completion data twice equals applying it once. -/
theorem resultUpdate_idem (old : ResultRec) (r : CompletedResults) :
    resultUpdate (resultUpdate old r) r = resultUpdate old r := by
  simp [resultUpdate, updOpt_idem]

/-- Updating a row just created from the same data is a no-op. -/
theorem resultUpdate_create (rid : Nat) (r : CompletedResults) :
    resultUpdate (resultCreate rid r) r = resultCreate rid r := by
  simp [resultUpdate, resultCreate, updOpt_self]

/-- Setting the same status twice equals setting it once. -/
theorem setStatus_idem (rid : Nat) (st : String) (rs : List Resume) :
    setStatus rid st (setStatus rid st rs) = setStatus rid st rs := by
  unfold setStatus
  rw [List.map_map]
  apply List.map_congr_left
  intro x _
  by_cases h : x.id = rid <;> simp [h, Function.comp]

/-- `setStatus` changes neither `s3Key` nor `userId`, so the locator's
predicate is insensitive to it. -/
theorem find?_setStatus (rs : List Resume) (fk : String) (uid : String)
    (rid : Nat) (st : String) :
    (setStatus rid st rs).find?
        (fun r => decide (r.s3Key = fk ∧ r.userId = expectedOwner uid)) =
      ((rs.find?
        (fun r => decide (r.s3Key = fk ∧ r.userId = expectedOwner uid))).map
        (fun x => if x.id = rid then { x with status := st } else x)) := by
  unfold setStatus
  rw [List.find?_map]
  have hpg : ((fun r => decide (r.s3Key = fk ∧ r.userId = expectedOwner uid)) ∘
      (fun x : Resume => if x.id = rid then { x with status := st } else x)) =
      (fun r : Resume => decide (r.s3Key = fk ∧ r.userId = expectedOwner uid)) := by
    funext x
    by_cases h : x.id = rid <;> simp [Function.comp, h]
  rw [hpg]

/-- Locating after a status write finds the same row with the new status. -/
theorem findResume_setStatus (db : DB) (fk : String) (uid : String)
    (rid : Nat) (st : String) (res : Resume)
    (hfind : findResume db fk uid = some res) :
    findResume ⟨setStatus rid st db.resumes, db.results⟩ fk uid =
      some (if res.id = rid then { res with status := st } else res) := by
  unfold findResume at *
  simp only [find?_setStatus, hfind]
  rfl

/-- Upserting the same completion data twice equals upserting it once. -/
theorem upsertResult_idem (rs : List ResultRec) (rid : Nat)
    (r : CompletedResults) :
    upsertResult (upsertResult rs rid r) rid r = upsertResult rs rid r := by
  unfold upsertResult
  by_cases h : rs.any (fun x => x.resumeId == rid)
  · rw [if_pos h]
    have hany2 : (rs.map (fun x => if x.resumeId == rid then resultUpdate x r else x)).any
        (fun x => x.resumeId == rid) = true := by
      rw [List.any_map]
      rw [List.any_eq_true] at h ⊢
      obtain ⟨x, hx, hpx⟩ := h
      refine ⟨x, hx, ?_⟩
      simp only [Function.comp, hpx, if_pos]
      rw [beq_iff_eq] at hpx ⊢
      rw [resultUpdate_resumeId, hpx]
    rw [if_pos hany2, List.map_map]
    apply List.map_congr_left
    intro x _
    by_cases hx : x.resumeId == rid
    · have hup : (resultUpdate x r).resumeId == rid := by
        rw [beq_iff_eq] at hx ⊢
        rw [resultUpdate_resumeId, hx]
      simp [Function.comp, hx, hup, resultUpdate_idem]
    · simp [Function.comp, hx]
  · rw [if_neg h]
    have hany2 : ((rs ++ [resultCreate rid r]).any (fun x => x.resumeId == rid)) = true := by
      rw [List.any_append]
      simp [resultCreate_resumeId]
    rw [if_pos hany2, List.map_append]
    rw [Bool.not_eq_true] at h
    rw [List.any_eq_false] at h
    congr 1
    · have hmap : (rs.map fun x => if x.resumeId == rid then resultUpdate x r else x) =
          rs.map id := by
        apply List.map_congr_left
        intro x hx
        have := h x hx
        simp [this]
      rw [hmap, List.map_id]
    · simp [resultCreate_resumeId, resultUpdate_create]

/-- C5.  Idempotence under at-least-once delivery: with a located job and
a well-formed store (at most one Result row for it), applying
`processing_completed` twice with the identical payload equals applying it
once; after one application the job has exactly one Result row and its
status is `COMPLETED`. -/
theorem handleProcessingCompleted_idempotent
    (fk : String) (r : CompletedResults) (uid : String) (db : DB)
    (res : Resume) (hfind : findResume db fk uid = some res)
    (hcount : db.results.countP (fun x => x.resumeId == res.id) ≤ 1) :
    handleProcessingCompleted fk r uid (handleProcessingCompleted fk r uid db) =
      handleProcessingCompleted fk r uid db ∧
    ((handleProcessingCompleted fk r uid db).results.countP
      (fun x => x.resumeId == res.id)) = 1 ∧
    (∀ x ∈ (handleProcessingCompleted fk r uid db).resumes,
      x.id = res.id → x.status = "COMPLETED") := by
  have hfind' : db.resumes.find?
      (fun x => decide (x.s3Key = fk ∧ x.userId = expectedOwner uid)) =
      some res := hfind
  have hdb1 : handleProcessingCompleted fk r uid db =
      ⟨setStatus res.id "COMPLETED" db.resumes,
        upsertResult db.results res.id r⟩ := by
    rw [handleProcessingCompleted, hfind]
  refine ⟨?_, ?_, ?_⟩
  · rw [hdb1]
    have hfind2 : findResume ⟨setStatus res.id "COMPLETED" db.resumes,
        upsertResult db.results res.id r⟩ fk uid =
        some { res with status := "COMPLETED" } := by
      show (setStatus res.id "COMPLETED" db.resumes).find? _ = _
      rw [find?_setStatus, hfind']
      simp
    rw [handleProcessingCompleted, hfind2]
    dsimp only
    rw [setStatus_idem, upsertResult_idem]
  · rw [hdb1]
    show (upsertResult db.results res.id r).countP _ = 1
    unfold upsertResult
    by_cases h : db.results.any (fun x => x.resumeId == res.id)
    · rw [if_pos h]
      have hcomp : ((fun x : ResultRec => x.resumeId == res.id) ∘
          (fun x => if x.resumeId == res.id then resultUpdate x r else x)) =
          (fun x : ResultRec => x.resumeId == res.id) := by
        funext x
        by_cases hx : (x.resumeId == res.id) = true
        · have hup : ((resultUpdate x r).resumeId == res.id) = true := by
            rw [beq_iff_eq] at hx ⊢
            rw [resultUpdate_resumeId, hx]
          simp [Function.comp, hx, hup]
        · simp [Function.comp, hx]
      rw [List.countP_map, hcomp]
      have hpos : 0 < db.results.countP (fun x => x.resumeId == res.id) := by
        rw [List.any_eq_true] at h
        obtain ⟨x, hx, hpx⟩ := h
        rw [List.countP_pos_iff]
        exact ⟨x, hx, hpx⟩
      omega
    · rw [if_neg h]
      rw [Bool.not_eq_true, List.any_eq_false] at h
      have h0 : db.results.countP (fun x => x.resumeId == res.id) = 0 := by
        rw [List.countP_eq_zero]
        exact h
      rw [List.countP_append, h0]
      simp [List.countP_cons, resultCreate_resumeId]
  · rw [hdb1]
    intro x hx hid
    simp only [setStatus] at hx
    rw [List.mem_map] at hx
    obtain ⟨y, hy, hxy⟩ := hx
    subst hxy
    by_cases hyid : y.id = res.id
    · rw [if_pos hyid]
    · rw [if_neg hyid] at hid ⊢
      exact absurd hid hyid

/-- Witness for C5 at a concrete input: a found job, a well-formed store,
and the three conclusions evaluated. -/
theorem handleProcessingCompleted_idempotent_witness :
    handleProcessingCompleted "uploads/u123/f.pdf" sparseResults "u123"
        (handleProcessingCompleted "uploads/u123/f.pdf" sparseResults "u123"
          dbWithResult) =
      handleProcessingCompleted "uploads/u123/f.pdf" sparseResults "u123"
        dbWithResult ∧
    ((handleProcessingCompleted "uploads/u123/f.pdf" sparseResults "u123"
        dbWithResult).results.countP (fun x => x.resumeId == resU.id)) = 1 ∧
    (∀ x ∈ (handleProcessingCompleted "uploads/u123/f.pdf" sparseResults
        "u123" dbWithResult).resumes,
      x.id = resU.id → x.status = "COMPLETED") :=
  handleProcessingCompleted_idempotent "uploads/u123/f.pdf" sparseResults
    "u123" dbWithResult resU (by decide) (by decide)

/-- C8.  Owner-token extraction and owner-scoped lookup: (1) a key whose
first path segment is `uploads` or `resumes` yields its second segment as
the owner token; (2) any other first segment yields no token; (3) a
located job always matches the key exactly and has an absent owner for the
sentinel token `guest` and exactly the token as owner otherwise; (4) an
authenticated notification whose key yields no token is rejected with 400
and the store is untouched. -/
theorem extract_owner_and_lookup_semantics :
    (∀ k p0 p1 rest, (splitChar '/' k.toList).map String.mk = p0 :: p1 :: rest →
      (p0 = "uploads" ∨ p0 = "resumes") →
      extractUserIdFromS3Key k = some p1) ∧
    (∀ k p0 rest, (splitChar '/' k.toList).map String.mk = p0 :: rest →
      ¬p0 = "uploads" → ¬p0 = "resumes" →
      extractUserIdFromS3Key k = none) ∧
    (∀ db k tok rr, findResume db k tok = some rr →
      rr.s3Key = k ∧ rr.userId = (if tok = "guest" then none else some tok)) ∧
    (∀ env w msg db p, topicMismatch env msg.TopicArn = false →
      (validateSNSSignature w.crypto msg).1 = true →
      msg.msgType = "Notification" →
      w.parsePayload msg.Message = some p →
      extractUserIdFromS3Key p.fileKey = none →
      (postHandler env w msg db).status = 400 ∧
      (postHandler env w msg db).db = db) := by
  refine ⟨?_, ?_, ?_, ?_⟩
  · intro k p0 p1 rest hsplit hp
    rw [extractUserIdFromS3Key]
    rw [hsplit]
    exact if_pos hp
  · intro k p0 rest hsplit h1 h2
    rw [extractUserIdFromS3Key]
    rw [hsplit]
    cases rest with
    | nil => rfl
    | cons p1 rest2 =>
      apply if_neg
      rintro (h | h)
      · exact h1 h
      · exact h2 h
  · intro db k tok rr hfind
    have hp := List.find?_some hfind
    have hp' := of_decide_eq_true hp
    exact ⟨hp'.1, hp'.2⟩
  · intro env w msg db p h1 h2 h3 h4 h5
    refine ⟨?_, ?_⟩ <;> simp [postHandler, h1, h2, h3, h4, h5]

/-- An anonymous (guest) resume row and a store holding it. -/
def resGuest : Resume := ⟨1, "resumes/guest/170000-file.pdf", none, "PENDING"⟩

/-- The store holding only the guest resume. -/
def dbGuest : DB := ⟨[resGuest], []⟩

/-- A post world whose payload parse yields a key with an unrecognized
first segment. -/
def wBadKey : PostWorld :=
  ⟨wAcceptCrypto, fun _ => .ok true,
   fun _ => some (.unknown "processing_started" "avatars/u1/f.pdf")⟩

/-- Witness for C8 at concrete inputs: both recognized prefixes, a
rejected prefix, the guest lookup, and the 400 endpoint rejection. -/
theorem extract_owner_and_lookup_semantics_witness :
    extractUserIdFromS3Key "uploads/u123/170000-file.pdf" = some "u123" ∧
    extractUserIdFromS3Key "avatars/u123/f.pdf" = none ∧
    (resGuest.s3Key = "resumes/guest/170000-file.pdf" ∧
      resGuest.userId = (if "guest" = "guest" then none else some "guest")) ∧
    ((postHandler (some "arn:trusted") wBadKey msgNotifGood dbGuest).status = 400 ∧
      (postHandler (some "arn:trusted") wBadKey msgNotifGood dbGuest).db = dbGuest) :=
  ⟨extract_owner_and_lookup_semantics.1 "uploads/u123/170000-file.pdf"
      "uploads" "u123" ["170000-file.pdf"] (by decide) (Or.inl rfl),
   extract_owner_and_lookup_semantics.2.1 "avatars/u123/f.pdf" "avatars"
      ["u123", "f.pdf"] (by decide) (by decide) (by decide),
   extract_owner_and_lookup_semantics.2.2.1 dbGuest
      "resumes/guest/170000-file.pdf" "guest" resGuest (by decide),
   extract_owner_and_lookup_semantics.2.2.2 (some "arn:trusted") wBadKey
      msgNotifGood dbGuest (.unknown "processing_started" "avatars/u1/f.pdf")
      (by decide) (by decide) rfl rfl (by decide)⟩
